import Mathlib

/-!
Verification development for the autoclean_standalone EEG source-localization
pipeline.  Each definition is a shallow embedding of the corresponding Python
function in autoclean_standalone.py; machine floats are modelled by exact
rationals, raised exceptions by Except values, and the mutable processing log
by explicit state passing.
-/

namespace Autoclean

/-! ## Configuration model (ScientificConfigManager) -/

/-- JSON-like configuration values, as stored in the loaded config dict. -/
inductive CfgValue where
  | num (q : ℚ)
  | str (s : String)
  | boolean (b : Bool)
  | dict (entries : List (String × CfgValue))

/-- Entry of the processing log: an action string and optional details
(timestamps are abstracted away, they carry no decision content). -/
structure LogEntry where
  action : String
  details : Option CfgValue

/-- State of a ScientificConfigManager: the loaded two-level config mapping
(section name to parameter name to value) and the append-only processing log. -/
structure ConfigState where
  config : List (String × List (String × CfgValue))
  processing_log : List LogEntry

/-- Model of ScientificConfigManager._log_action: append one entry. -/
def log_action (st : ConfigState) (action : String) (details : Option CfgValue) :
    ConfigState :=
  ⟨st.config, st.processing_log ++ [⟨action, details⟩]⟩

/-- Model of the Python expression self.config[section][parameter]: a two-step
dictionary lookup, where a missing key at either level raises KeyError
(here: returns none). -/
def lookup2 (cfg : List (String × List (String × CfgValue))) (sec par : String) :
    Option CfgValue :=
  match cfg.find? (fun s => s.1 == sec) with
  | none => none
  | some s => (s.2.find? (fun p => p.1 == par)).map (fun p => p.2)

/-- Model of ScientificConfigManager.get_parameter (lines 138-149).
Returns the resolved value (or the raised ValueError message) together with
the resulting manager state.  A present value that is a dict containing a
"default" key resolves to that wrapped value without logging; a missing
parameter resolves to the caller default, logged, or raises when the caller
supplied none. -/
def get_parameter (st : ConfigState) (sec par : String) (default : Option CfgValue) :
    Except String CfgValue × ConfigState :=
  match lookup2 st.config sec par with
  | some value =>
    match value with
    | .dict es =>
      match es.find? (fun kv => kv.1 == "default") with
      | some kv => (.ok kv.2, st)
      | none => (.ok value, st)
    | _ => (.ok value, st)
  | none =>
    match default with
    | some d =>
      (.ok d, log_action st ("Using default for " ++ sec ++ "." ++ par)
        (some (.dict [("default", d)])))
    | none => (.error ("Required parameter not found: " ++ sec ++ "." ++ par), st)

/-- Scientific parameters read by validate_scientific_parameters. -/
structure SciParams where
  lambda2 : ℚ
  target_srate : ℚ
  highpass_freq : ℚ
  lowpass_freq : ℚ

/-- Errors raised by validate_scientific_parameters; each constructor names the
offending parameter and carries the offending value reported in the message. -/
inductive ConfigError where
  | lambda2_out_of_range (v : ℚ)
  | srate_out_of_range (v : ℚ)
  | freq_order (hp lp : ℚ)
deriving DecidableEq

/-- Model of ScientificConfigManager.validate_scientific_parameters
(lines 151-172): three range checks performed in order, each raising a
ValueError naming the parameter, then returning True. -/
def validate_scientific_parameters (p : SciParams) : Except ConfigError Bool :=
  if ¬ (0.001 ≤ p.lambda2 ∧ p.lambda2 ≤ 1.0) then
    .error (.lambda2_out_of_range p.lambda2)
  else if ¬ (50.0 ≤ p.target_srate ∧ p.target_srate ≤ 2000.0) then
    .error (.srate_out_of_range p.target_srate)
  else if p.highpass_freq ≥ p.lowpass_freq then
    .error (.freq_order p.highpass_freq p.lowpass_freq)
  else
    .ok true

/-! ## Recording validation (DataLoader._validate_raw_data) -/

/-- A machine-float sample: NaN, an infinity, or a finite value (modelled by a
rational). -/
inductive Sample where
  | nan
  | posInf
  | negInf
  | fin (q : ℚ)
deriving DecidableEq

/-- Model of np.isnan at one sample. -/
def Sample.isnan : Sample → Bool
  | .nan => true
  | _ => false

/-- Model of np.isinf at one sample. -/
def Sample.isinf : Sample → Bool
  | .posInf => true
  | .negInf => true
  | _ => false

/-- Numeric value of a finite sample (only consulted on NaN/Inf-free data). -/
def Sample.toRat : Sample → ℚ
  | .fin q => q
  | _ => 0

/-- A continuous Recording as produced by the external loader: channel names,
time axis, sample rate, and the channel-by-time sample matrix. -/
structure RawData where
  ch_names : List String
  times : List ℚ
  sfreq : ℚ
  data : List (List Sample)

/-- Model of np.any(np.isnan(data)) or np.any(np.isinf(data)). -/
def has_nan_or_inf (d : List (List Sample)) : Bool :=
  d.any (fun row => row.any (fun s => s.isnan)) ||
    d.any (fun row => row.any (fun s => s.isinf))

/-- Flatten the sample matrix to the finite values it holds. -/
def flatten_samples (d : List (List Sample)) : List ℚ :=
  (d.map (fun r => r.map Sample.toRat)).flatten

/-- Model of np.ptp: peak-to-peak (max minus min) over all samples. -/
def ptp_range (xs : List ℚ) : ℚ :=
  xs.foldl max (xs.headD 0) - xs.foldl min (xs.headD 0)

/-- Validation metrics recorded for a file. -/
structure ValidationMetrics where
  n_channels : ℕ
  n_times : ℕ
  duration_s : ℚ
  sampling_rate : ℚ
deriving DecidableEq

/-- Generic model of a Python dict assignment d[k] = v: replace the value when
the key is present, otherwise append the pair. -/
def dict_insert {α : Type} (d : List (String × α)) (k : String) (v : α) :
    List (String × α) :=
  if d.any (fun kv => kv.1 == k) then
    d.map (fun kv => if kv.1 == k then (k, v) else kv)
  else d ++ [(k, v)]

/-- Model of DataLoader._validate_raw_data (lines 240-280).  Returns the
validation outcome (metrics, or the raised ValueError message) together with
the warnings issued and the updated per-file metrics store.  Soft checks warn;
only the NaN/Inf check raises. -/
def validate_raw_data (store : List (String × ValidationMetrics)) (raw : RawData)
    (file_path : String) :
    (Except String ValidationMetrics × List String) × List (String × ValidationMetrics) :=
  let n_channels := raw.ch_names.length
  let n_times := raw.times.length
  let duration := raw.times.getLastD 0
  let srate := raw.sfreq
  let metrics : ValidationMetrics := ⟨n_channels, n_times, duration, srate⟩
  let warns1 :=
    (if n_channels < 32 then ["Low channel count. Results may be unreliable."] else []) ++
    (if duration < 60 then ["Short recording. Consider longer recordings."] else []) ++
    (if srate < 250 then ["Low sampling rate. Consider higher sampling rates."] else [])
  if has_nan_or_inf raw.data then
    ((.error "Data contains NaN or infinite values", warns1), store)
  else
    let data_range := ptp_range (flatten_samples raw.data)
    let warns2 :=
      if data_range > 0.001 then ["Unusually large voltage range. Check data units."]
      else if data_range < 1e-8 then ["Unusually small voltage range. Check data scaling."]
      else []
    ((.ok metrics, warns1 ++ warns2), dict_insert store file_path metrics)

/-! ## Batch orchestration (StandaloneEEGProcessor.process_directory) -/

/-- The per-file loop of process_directory (lines 413-422): each file is
processed; a success is stored in the results dict, a failure is appended to
failed_files and the loop continues with the next file. -/
def process_loop {R : Type} (process : String → Except String R) :
    List String → List (String × R) × List (String × String) →
      List (String × R) × List (String × String)
  | [], acc => acc
  | f :: fs, acc =>
    match process f with
    | .ok r => process_loop process fs (dict_insert acc.1 f r, acc.2)
    | .error e => process_loop process fs (acc.1, acc.2 ++ [(f, e)])

/-- Model of StandaloneEEGProcessor.process_directory (lines 389-440) after
file discovery: run the loop with empty results and failed-files accumulators.
The per-file pipeline is abstracted as the process argument. -/
def process_directory {R : Type} (process : String → Except String R)
    (files : List String) : List (String × R) × List (String × String) :=
  process_loop process files ([], [])

/-- The successful (file, result) pairs a per-file process yields on a list. -/
def successes {R : Type} (process : String → Except String R) (fs : List String) :
    List (String × R) :=
  fs.filterMap (fun f => match process f with | .ok r => some (f, r) | .error _ => none)

/-- The failing (file, error) pairs a per-file process yields on a list. -/
def failures {R : Type} (process : String → Except String R) (fs : List String) :
    List (String × String) :=
  fs.filterMap (fun f => match process f with | .ok _ => none | .error e => some (f, e))

/-! ## Atlas constants and simulation fallback -/

/-- The DESIKAN_KILLIANY_REGIONS constant (lines 63-86): the 68 region names,
left hemisphere first, then right hemisphere. -/
def DESIKAN_KILLIANY_REGIONS : List String := [
  "bankssts-lh", "caudalanteriorcingulate-lh", "caudalmiddlefrontal-lh",
  "cuneus-lh", "entorhinal-lh", "fusiform-lh", "inferiorparietal-lh",
  "inferiortemporal-lh", "isthmuscingulate-lh", "lateraloccipital-lh",
  "lateralorbitofrontal-lh", "lingual-lh", "medialorbitofrontal-lh",
  "middletemporal-lh", "parahippocampal-lh", "paracentral-lh",
  "parsopercularis-lh", "parsorbitalis-lh", "parstriangularis-lh",
  "pericalcarine-lh", "postcentral-lh", "posteriorcingulate-lh",
  "precentral-lh", "precuneus-lh", "rostralanteriorcingulate-lh",
  "rostralmiddlefrontal-lh", "superiorfrontal-lh", "superiorparietal-lh",
  "superiortemporal-lh", "supramarginal-lh", "frontalpole-lh",
  "temporalpole-lh", "transversetemporal-lh", "insula-lh",
  "bankssts-rh", "caudalanteriorcingulate-rh", "caudalmiddlefrontal-rh",
  "cuneus-rh", "entorhinal-rh", "fusiform-rh", "inferiorparietal-rh",
  "inferiortemporal-rh", "isthmuscingulate-rh", "lateraloccipital-rh",
  "lateralorbitofrontal-rh", "lingual-rh", "medialorbitofrontal-rh",
  "middletemporal-rh", "parahippocampal-rh", "paracentral-rh",
  "parsopercularis-rh", "parsorbitalis-rh", "parstriangularis-rh",
  "pericalcarine-rh", "postcentral-rh", "posteriorcingulate-rh",
  "precentral-rh", "precuneus-rh", "rostralanteriorcingulate-rh",
  "rostralmiddlefrontal-rh", "superiorfrontal-rh", "superiorparietal-rh",
  "superiortemporal-rh", "supramarginal-rh", "frontalpole-rh",
  "temporalpole-rh", "transversetemporal-rh", "insula-rh"]

/-- A three-dimensional numeric tensor (first by second by third dimension). -/
abbrev Tensor3 := List (List (List ℚ))

/-- Model of np.random.seed acting on the global generator state: the prior
state is discarded and replaced by the given seed. -/
def np_random_seed (_prior : ℕ) (n : ℕ) : ℕ := n

/-- Deterministic model of one draw of the seeded standard-normal sampler:
after seeding, the k-th draw is a fixed function of the generator state and k
(true of numpy's Mersenne Twister; the actual values are abstracted by a
linear congruential model since exact binary floats are out of scope). -/
def randn_draw (state : ℕ) (k : ℕ) : ℚ :=
  (((1664525 * (state + k) + 1013904223) % 4294967296 : ℕ) : ℚ) / 4294967296 - 1 / 2

/-- Model of np.random.randn(d1, d2, d3) from a given generator state: the
flat draw index is the C-order position of the entry. -/
def randn3 (state : ℕ) (d1 d2 d3 : ℕ) : Tensor3 :=
  (List.range d1).map (fun i =>
    (List.range d2).map (fun j =>
      (List.range d3).map (fun k => randn_draw state (k + d3 * (j + d2 * i)))))

/-- Elementwise scaling of a tensor (model of array * scalar). -/
def scale3 (c : ℚ) (t : Tensor3) : Tensor3 :=
  t.map (fun m => m.map (fun r => r.map (fun x => x * c)))

/-- The simulation fallback of _compute_inverse_solution (lines 630-634 and
691-695): np.random.seed(42) followed by
np.random.randn(len(DESIKAN_KILLIANY_REGIONS), n_times, n_epochs) * 1e-9.
The rng argument is the prior global generator state, which the seeding
discards. -/
def simulated_inverse (rng : ℕ) (n_times n_epochs : ℕ) : Tensor3 :=
  scale3 1e-9
    (randn3 (np_random_seed rng 42) DESIKAN_KILLIANY_REGIONS.length n_times n_epochs)

/-- Shape test for a three-dimensional tensor: d1 rows, each of d2 columns,
each of d3 entries. -/
def is_shape3 (t : Tensor3) (d1 d2 d3 : ℕ) : Bool :=
  t.length == d1 &&
    t.all (fun m => m.length == d2 && m.all (fun r => r.length == d3))

/-! ## Inverse solution (StandaloneEEGProcessor._compute_inverse_solution) -/

/-- A SourceEstimate returned by the external inverse application: its data
matrix is source points by time samples. -/
structure Stc where
  data : List (List ℚ)

/-- The arguments the code passes to mne.minimum_norm.apply_inverse_epochs
(lines 664-666): the regularization strength and the method string. -/
structure ApplyCall where
  lambda2 : ℚ
  method : String
deriving DecidableEq

/-- Environment of external mne calls made on the genuine path: noise
covariance estimation, inverse-operator construction, and the inverse
application (a function of the call actually issued). Each can raise. -/
structure InverseEnv where
  noise_cov : Except String Unit
  inverse_operator : Except String Unit
  apply_result : ApplyCall → Except String (List Stc)

/-- Trace entries of _compute_inverse_solution: the initial log of the
configured lambda2, the inverse application actually issued, the
fallback-to-simulation warning, and the success log. -/
inductive SolveLog where
  | computing (lambda2 : ℚ)
  | applied (call : ApplyCall)
  | fallback_warning (msg : String)
  | solved (n_sources n_times n_epochs : ℕ)
deriving DecidableEq

/-- Model of the epochs object as consumed by the inverse solver: the number
of epochs (len(epochs)) and the per-epoch time axis (epochs.times). -/
structure EpochsMeta where
  n_epochs : ℕ
  times : List ℚ
  sfreq : ℚ

/-- Stacking loop of lines 670-676: source_data[:, :, i] = stcs[i].data over a
zero-initialized (n_sources, n_times, n_epochs) array. -/
def stack_stcs (stcs : List Stc) (n_sources n_times : ℕ) : Tensor3 :=
  (List.range n_sources).map (fun s =>
    (List.range n_times).map (fun t =>
      stcs.map (fun stc => (stc.data.getD s []).getD t 0)))

/-- Model of StandaloneEEGProcessor._compute_inverse_solution (lines 621-695).
The configured lambda2 is read and logged; with no forward model (or on any
failure among the external calls) the seeded simulation is returned with a
warning; on the genuine path the regularization actually passed to the
inverse application is rebound to 1/snr^2 with snr = 3 before the call. -/
def compute_inverse_solution (cfg : SciParams) (ep : EpochsMeta)
    (forward : Option Unit) (env : InverseEnv) (rng : ℕ) :
    Tensor3 × List SolveLog :=
  let lambda2 := cfg.lambda2
  let log0 : List SolveLog := [.computing lambda2]
  match forward with
  | none =>
    (simulated_inverse rng ep.times.length ep.n_epochs,
     log0 ++ [.fallback_warning "forward model failure"])
  | some _ =>
    match env.noise_cov with
    | .error e =>
      (simulated_inverse rng ep.times.length ep.n_epochs,
       log0 ++ [.fallback_warning e])
    | .ok _ =>
    match env.inverse_operator with
    | .error e =>
      (simulated_inverse rng ep.times.length ep.n_epochs,
       log0 ++ [.fallback_warning e])
    | .ok _ =>
      let snr : ℚ := 3.0
      let lambda2 := 1.0 / snr ^ 2
      let call : ApplyCall := ⟨lambda2, "MNE"⟩
      match env.apply_result call with
      | .error e =>
        (simulated_inverse rng ep.times.length ep.n_epochs,
         log0 ++ [.applied call, .fallback_warning e])
      | .ok [] =>
        (simulated_inverse rng ep.times.length ep.n_epochs,
         log0 ++ [.applied call, .fallback_warning "list index out of range"])
      | .ok (s0 :: rest) =>
        let n_sources := s0.data.length
        let n_times := (s0.data.headD []).length
        (stack_stcs (s0 :: rest) n_sources n_times,
         log0 ++ [.applied call, .solved n_sources n_times (s0 :: rest).length])

/-! ## Atlas parcellation (StandaloneEEGProcessor._apply_atlas_parcellation) -/

/-- The atlas_timecourses dict built at lines 706-711. -/
structure AtlasTimeCourses where
  data : Tensor3
  region_names : List String
  units : String
  atlas_version : String

/-- Model of _apply_atlas_parcellation (lines 697-713): the source estimates
are passed through unchanged and packaged with the fixed region-name list,
units, and atlas version. -/
def apply_atlas_parcellation (source_estimates : Tensor3) : AtlasTimeCourses :=
  ⟨source_estimates, DESIKAN_KILLIANY_REGIONS, "A⋅m", "desikan_killiany_68"⟩

/-- Hemisphere test: the region name ends with the given two-letter
hemisphere tag (written on the character list to keep kernel evaluation
cheap). -/
def hemi_tag (tag : List Char) (r : String) : Bool :=
  r.toList.reverse.take 3 == tag.reverse

/-! ## Forward model construction (StandaloneEEGProcessor._build_forward_model) -/

/-- One channel of the measurement info: name, channel type, and the first
three entries of its loc vector (the 3-D electrode position). -/
structure ChannelInfo where
  name : String
  ch_type : String
  loc : List ℚ
deriving DecidableEq

/-- A montage: list of (canonical channel name, 3-D position) pairs. -/
abbrev Montage := List (String × List ℚ)

/-- Errors arising inside _build_forward_model: a failure of one of the
external calls, or the ValueError raised at line 602 carrying the exact count
of channels with electrode locations. -/
inductive ForwardError where
  | external_error (msg : String)
  | insufficient_coverage (n : ℕ)
deriving DecidableEq

/-- Environment of external calls made by _build_forward_model: fetching the
template subject, reading source space and BEM solution, resolving the
standard montage, and computing the forward solution.  Each can raise. -/
structure ForwardEnv where
  fetch_fsaverage : Except String String
  read_source_spaces : Except String Unit
  read_bem_solution : Except String Unit
  make_standard_montage : Except String Montage
  make_forward_solution : List ChannelInfo → Except String Unit

/-- EOG retyping of lines 566-569: channels literally named HEOG or VEOG get
channel type eog. -/
def retype_eog (chs : List ChannelInfo) : List ChannelInfo :=
  chs.map (fun c =>
    if c.name == "HEOG" || c.name == "VEOG" then ⟨c.name, "eog", c.loc⟩ else c)

/-- Case-insensitive channel-name reconciliation of lines 573-589: a non-EOG
channel whose upper-cased name matches a montage channel's upper-cased name is
renamed to the montage's canonical spelling (first match, as list.index
does). -/
def reconcile_channel_name (montage : Montage) (n : String) : String :=
  if n.toUpper == "HEOG" || n.toUpper == "VEOG" then n
  else
    match montage.find? (fun m => m.1.toUpper == n.toUpper) with
    | some m => m.1
    | none => n

/-- Model of info.set_montage(montage, on_missing = ignore) at line 595: a
channel whose (reconciled) name appears in the montage receives the montage
position; other channels keep their prior loc and are ignored, not fatal. -/
def set_montage_positions (montage : Montage) (chs : List ChannelInfo) :
    List ChannelInfo :=
  chs.map (fun c =>
    match montage.find? (fun m => m.1 == c.name) with
    | some m => ⟨c.name, c.ch_type, m.2⟩
    | none => c)

/-- The channel info after EOG retyping, name reconciliation, and montage
position assignment (lines 566-595). -/
def reconciled_info (montage : Montage) (chs : List ChannelInfo) :
    List ChannelInfo :=
  set_montage_positions montage
    ((retype_eog chs).map (fun c =>
      ⟨reconcile_channel_name montage c.name, c.ch_type, c.loc⟩))

/-- The count of lines 598-599: channels whose loc[:3] has any nonzero
entry. -/
def count_channels_with_locs (chs : List ChannelInfo) : ℕ :=
  chs.countP (fun c => (c.loc.take 3).any (fun x => x != 0))

/-- The located-channel count _build_forward_model gates on, as a function of
the resolved montage and the incoming channels. -/
def located_channel_count (montage : Montage) (chs : List ChannelInfo) : ℕ :=
  count_channels_with_locs (reconciled_info montage chs)

/-- The try-block body of _build_forward_model (lines 542-613): the sequence
of external calls and the electrode-coverage gate.  Any raise is surfaced as
an Except error for the enclosing handler. -/
def build_forward_model_inner (env : ForwardEnv) (chs : List ChannelInfo) :
    Except ForwardError Unit :=
  match env.fetch_fsaverage with
  | .error e => .error (.external_error e)
  | .ok _ =>
  match env.read_source_spaces with
  | .error e => .error (.external_error e)
  | .ok _ =>
  match env.read_bem_solution with
  | .error e => .error (.external_error e)
  | .ok _ =>
  match env.make_standard_montage with
  | .error e => .error (.external_error e)
  | .ok montage =>
    let info := reconciled_info montage chs
    let n := count_channels_with_locs info
    if n < 8 then .error (.insufficient_coverage n)
    else
      match env.make_forward_solution info with
      | .error e => .error (.external_error e)
      | .ok f => .ok f

/-- Log entries emitted by _build_forward_model around its except handler. -/
inductive BuildLog where
  | forward_model_failed (e : ForwardError)
  | warn_using_simulation (e : ForwardError)
  | built_ok
deriving DecidableEq

/-- Model of _build_forward_model (lines 537-619): the handler at lines
615-619 converts every exception into a logged failure, a user-visible
warning, and a returned None; on success the forward model is returned. -/
def build_forward_model (env : ForwardEnv) (chs : List ChannelInfo) :
    Option Unit × List BuildLog :=
  match build_forward_model_inner env chs with
  | .ok f => (some f, [.built_ok])
  | .error e => (none, [.forward_model_failed e, .warn_using_simulation e])

/-! ## Preprocessing of epoched input (StandaloneEEGProcessor._preprocess_data) -/

/-- Operations the epoched branch of _preprocess_data can apply, in order. -/
inductive PreprocOp where
  | filter_highpass (f : ℚ)
  | filter_lowpass (f : ℚ)
  | resample (r : ℚ)
  | set_channel_type_eog (ch : String)
  | set_eeg_reference_average
deriving DecidableEq

/-- Whether an operation is a frequency filter. -/
def PreprocOp.is_filter : PreprocOp → Bool
  | .filter_highpass _ => true
  | .filter_lowpass _ => true
  | _ => false

/-- Preprocessing parameters read at lines 445-447. -/
structure PreprocParams where
  target_srate : ℚ
  highpass_freq : ℚ
  lowpass_freq : ℚ

/-- Already-epoched input as consumed by the epoched branch: the first and
last entries of the epoch time axis, the sample rate, and channel
names/types (parallel lists). -/
structure EpochedInput where
  t_first : ℚ
  t_last : ℚ
  sfreq : ℚ
  ch_names : List String
  ch_types : List String

/-- The EEG-channel count of lines 489-490, after the EOG retyping of lines
482-485 has marked channels named HEOG or VEOG as eog. -/
def eeg_channel_count (d : EpochedInput) : ℕ :=
  (d.ch_names.zip d.ch_types).countP (fun ct =>
    (if ct.1 == "HEOG" || ct.1 == "VEOG" then "eog" else ct.2) == "eeg")

/-- Model of the epoched branch of _preprocess_data (lines 455-498) as the
ordered trace of operations applied to the epochs.  Filtering is skipped
outright when the per-epoch duration is under 2.0 s; otherwise high-pass
(when the cutoff is positive) precedes low-pass (when the cutoff is below
Nyquist) inside a try block whose success is the filter_ok argument (on an
exception the code warns and keeps the epochs unfiltered).  Resampling,
EOG retyping, and average referencing follow. -/
def preprocess_epoched_ops (p : PreprocParams) (d : EpochedInput)
    (filter_ok : Bool) : List PreprocOp :=
  let epoch_duration := d.t_last - d.t_first
  let filter_ops : List PreprocOp :=
    if epoch_duration < 2.0 then []
    else if filter_ok then
      (if p.highpass_freq > 0 then [.filter_highpass p.highpass_freq] else []) ++
        (if p.lowpass_freq < d.sfreq / 2 then [.filter_lowpass p.lowpass_freq] else [])
    else []
  let resample_ops : List PreprocOp :=
    if 0.1 < |d.sfreq - p.target_srate| then [.resample p.target_srate] else []
  let eog_ops : List PreprocOp :=
    (if d.ch_names.contains "HEOG" then [.set_channel_type_eog "HEOG"] else []) ++
      (if d.ch_names.contains "VEOG" then [.set_channel_type_eog "VEOG"] else [])
  let ref_ops : List PreprocOp :=
    if 1 < eeg_channel_count d then [.set_eeg_reference_average] else []
  filter_ops ++ resample_ops ++ eog_ops ++ ref_ops

/-! ## Theorems -/

/-- Claim C5: validate_scientific_parameters returns true exactly when the
regularization strength lies in [0.001, 1.0], the target sample rate lies in
[50, 2000] Hz, and the high-pass cutoff is strictly below the low-pass cutoff;
on any violation it fails with the error naming the offending parameter and
carrying its value. -/
theorem validate_scientific_parameters_spec (p : SciParams) :
    (validate_scientific_parameters p = .ok true ↔
      ((0.001 ≤ p.lambda2 ∧ p.lambda2 ≤ 1.0) ∧
        (50.0 ≤ p.target_srate ∧ p.target_srate ≤ 2000.0) ∧
        p.highpass_freq < p.lowpass_freq))
    ∧ (¬ (0.001 ≤ p.lambda2 ∧ p.lambda2 ≤ 1.0) →
        validate_scientific_parameters p = .error (.lambda2_out_of_range p.lambda2))
    ∧ ((0.001 ≤ p.lambda2 ∧ p.lambda2 ≤ 1.0) →
        ¬ (50.0 ≤ p.target_srate ∧ p.target_srate ≤ 2000.0) →
        validate_scientific_parameters p = .error (.srate_out_of_range p.target_srate))
    ∧ ((0.001 ≤ p.lambda2 ∧ p.lambda2 ≤ 1.0) →
        (50.0 ≤ p.target_srate ∧ p.target_srate ≤ 2000.0) →
        p.highpass_freq ≥ p.lowpass_freq →
        validate_scientific_parameters p =
          .error (.freq_order p.highpass_freq p.lowpass_freq)) := by
  unfold validate_scientific_parameters
  split_ifs with h1 h2 h3 <;> simp_all

/-- Witness for C5: a concrete in-range configuration validates to true, and a
concrete out-of-range regularization strength is rejected naming lambda2. -/
theorem validate_scientific_parameters_spec_witness :
    validate_scientific_parameters ⟨0.05, 250, 1, 100⟩ = .ok true
    ∧ validate_scientific_parameters ⟨2, 250, 1, 100⟩ =
        .error (.lambda2_out_of_range 2) := by
  constructor
  · exact (validate_scientific_parameters_spec ⟨0.05, 250, 1, 100⟩).1.mpr (by norm_num)
  · exact (validate_scientific_parameters_spec ⟨2, 250, 1, 100⟩).2.1 (by norm_num)

/-- Claim C10: get_parameter raises a ValueError naming the missing parameter
when the lookup fails and the caller supplied no default; it returns the
caller default (appending a log entry recording it) when one is supplied; and
a present value that is a dict containing a default key resolves to that
wrapped default rather than the dict itself. -/
theorem get_parameter_spec (st : ConfigState) (sec par : String) :
    (lookup2 st.config sec par = none →
      get_parameter st sec par none =
        (.error ("Required parameter not found: " ++ sec ++ "." ++ par), st))
    ∧ (∀ d, lookup2 st.config sec par = none →
      get_parameter st sec par (some d) =
        (.ok d, log_action st ("Using default for " ++ sec ++ "." ++ par)
          (some (.dict [("default", d)]))))
    ∧ (∀ es kv dflt, lookup2 st.config sec par = some (.dict es) →
      es.find? (fun x => x.1 == "default") = some kv →
      get_parameter st sec par dflt = (.ok kv.2, st)) := by
  refine ⟨?_, ?_, ?_⟩
  · intro h
    simp [get_parameter, h]
  · intro d h
    simp [get_parameter, h]
  · intro es kv dflt h hf
    simp [get_parameter, h, hf]

/-- Witness for C10: a concrete missing parameter with a caller default
resolves to the default and appends a log entry recording it. -/
theorem get_parameter_spec_witness :
    get_parameter ⟨[("processing_parameters", [("memory_threshold_gb", .num 4)])], []⟩
        "processing_parameters" "n_jobs" (some (.num 1)) =
      (.ok (.num 1),
        ⟨[("processing_parameters", [("memory_threshold_gb", .num 4)])],
          [⟨"Using default for processing_parameters.n_jobs",
            some (.dict [("default", .num 1)])⟩]⟩) := by
  exact (get_parameter_spec
    ⟨[("processing_parameters", [("memory_threshold_gb", .num 4)])], []⟩
    "processing_parameters" "n_jobs").2.1 (.num 1) rfl

/-- Counterexample to claim C9: a parameter present as a wrapper dict with a
documented default resolves to that default value, yet no entry is appended to
the processing log — silent defaulting does occur on this path. -/
theorem wrapper_default_not_logged :
    (get_parameter ⟨[("scientific_parameters",
        [("montage", .dict [("default", .str "standard_1005"),
          ("description", .str "electrode montage")])])], []⟩
      "scientific_parameters" "montage" none).1 = .ok (.str "standard_1005")
    ∧ (get_parameter ⟨[("scientific_parameters",
        [("montage", .dict [("default", .str "standard_1005"),
          ("description", .str "electrode montage")])])], []⟩
      "scientific_parameters" "montage" none).2.processing_log = [] :=
  ⟨rfl, rfl⟩

/-- Claim C9 as amended: only lookups that fall back to the caller-supplied
default on a missing parameter append a log entry recording the default used;
a lookup that resolves a present parameter — including a wrapper dict whose
documented default is returned — leaves the processing log unchanged. -/
theorem default_logging_amended (st : ConfigState) (sec par : String) :
    (∀ d, lookup2 st.config sec par = none →
      (get_parameter st sec par (some d)).2.processing_log =
        st.processing_log ++ [⟨"Using default for " ++ sec ++ "." ++ par,
          some (.dict [("default", d)])⟩])
    ∧ (∀ v dflt, lookup2 st.config sec par = some v →
      (get_parameter st sec par dflt).2.processing_log = st.processing_log) := by
  constructor
  · intro d h
    simp [get_parameter, h, log_action]
  · intro v dflt h
    simp only [get_parameter, h]
    cases v with
    | dict es =>
      cases hf : es.find? (fun kv => kv.1 == "default") <;> simp [hf]
    | num q => simp
    | str s => simp
    | boolean b => simp

/-- Witness for the amended C9: the caller-default path appends the log entry
at a concrete configuration. -/
theorem default_logging_amended_witness :
    (get_parameter ⟨[], []⟩ "processing_parameters" "n_jobs"
      (some (.num 1))).2.processing_log =
      [⟨"Using default for processing_parameters.n_jobs",
        some (.dict [("default", .num 1)])⟩] := by
  exact (default_logging_amended ⟨[], []⟩ "processing_parameters" "n_jobs").1
    (.num 1) rfl

/-- Claim C3: validation of a Recording fails with the data-corruption error
exactly when the data holds a NaN or infinite sample; NaN/Inf-free data always
validates (possibly with warnings); and the outcome is independent of the
stored metrics state and file path, so repeated validation of the same
Recording gives the same result. -/
theorem validate_raw_data_spec (s1 s2 : List (String × ValidationMetrics))
    (p1 p2 : String) (raw : RawData) :
    ((validate_raw_data s1 raw p1).1 = (validate_raw_data s2 raw p2).1)
    ∧ (has_nan_or_inf raw.data = true ↔
        (validate_raw_data s1 raw p1).1.1 =
          .error "Data contains NaN or infinite values")
    ∧ (has_nan_or_inf raw.data = false →
        ∃ m, (validate_raw_data s1 raw p1).1.1 = .ok m) := by
  cases h : has_nan_or_inf raw.data <;> simp [validate_raw_data, h]

/-- Witness for C3: a concrete Recording holding a NaN fails with the
data-corruption error, and a concrete clean Recording validates. -/
theorem validate_raw_data_spec_witness :
    (validate_raw_data [] ⟨["Cz"], [0], 500, [[.nan]]⟩ "bad.set").1.1 =
      .error "Data contains NaN or infinite values"
    ∧ ∃ m, (validate_raw_data [] ⟨["Cz"], [0, 1], 500,
        [[.fin 0, .fin 1]]⟩ "good.set").1.1 = .ok m := by
  constructor
  · exact (validate_raw_data_spec [] [] "bad.set" "bad.set"
      ⟨["Cz"], [0], 500, [[.nan]]⟩).2.1.mp rfl
  · exact (validate_raw_data_spec [] [] "good.set" "good.set"
      ⟨["Cz"], [0, 1], 500, [[.fin 0, .fin 1]]⟩).2.2 rfl

/-- A dict assignment with a fresh key appends the pair. -/
theorem dict_insert_of_not_mem {R : Type} (d : List (String × R)) (k : String)
    (v : R) (h : ∀ kv ∈ d, kv.1 ≠ k) : dict_insert d k v = d ++ [(k, v)] := by
  have hany : d.any (fun kv => kv.1 == k) = false := by
    simp only [List.any_eq_false]
    intro kv hkv
    simp [h kv hkv]
  simp [dict_insert, hany]

/-- The batch loop, started on accumulators whose result keys avoid the
remaining distinct files, appends exactly the successful pairs to the results
dict and the failing pairs to the failed-files list. -/
theorem process_loop_eq {R : Type} (p : String → Except String R)
    (fs : List String) : ∀ (res : List (String × R)) (fails : List (String × String)),
    fs.Nodup → (∀ f ∈ fs, ∀ kv ∈ res, kv.1 ≠ f) →
    process_loop p fs (res, fails) = (res ++ successes p fs, fails ++ failures p fs) := by
  induction fs with
  | nil =>
    intro res fails _ _
    simp [process_loop, successes, failures]
  | cons f fs ih =>
    intro res fails hnd hinv
    rw [List.nodup_cons] at hnd
    cases hp : p f with
    | ok r =>
      have hres : dict_insert res f r = res ++ [(f, r)] :=
        dict_insert_of_not_mem res f r (fun kv hkv => hinv f (by simp) kv hkv)
      have hinv2 : ∀ g ∈ fs, ∀ kv ∈ res ++ [(f, r)], kv.1 ≠ g := by
        intro g hg kv hkv
        rcases List.mem_append.mp hkv with h1 | h2
        · exact hinv g (by simp [hg]) kv h1
        · have : kv = (f, r) := by simpa using h2
          subst this
          intro hfg
          have : f = g := hfg
          exact hnd.1 (this ▸ hg)
      simp only [process_loop, hp, hres]
      rw [ih (res ++ [(f, r)]) fails hnd.2 hinv2]
      simp [successes, failures, List.filterMap_cons, hp]
    | error e =>
      have hinv2 : ∀ g ∈ fs, ∀ kv ∈ res, kv.1 ≠ g :=
        fun g hg kv hkv => hinv g (by simp [hg]) kv hkv
      simp only [process_loop, hp]
      rw [ih res (fails ++ [(f, e)]) hnd.2 hinv2]
      simp [successes, failures, List.filterMap_cons, hp]

/-- Every file contributes to exactly one of the success and failure lists. -/
theorem successes_failures_length {R : Type} (p : String → Except String R)
    (fs : List String) :
    (successes p fs).length + (failures p fs).length = fs.length := by
  induction fs with
  | nil => simp [successes, failures]
  | cons f fs ih =>
    cases hp : p f <;>
      simp only [successes, failures, List.filterMap_cons, hp] at ih ⊢ <;>
      simp [successes, failures] at ih ⊢ <;> omega

/-- Claim C4: over any duplicate-free batch of input files, the number of
successful files plus the number of failed files equals the number of files
submitted, and each file's own outcome is recorded — a failure on one file
never prevents the processing and recording of any other file. -/
theorem process_directory_spec {R : Type} (p : String → Except String R)
    (files : List String) (h : files.Nodup) :
    ((process_directory p files).1.length + (process_directory p files).2.length
        = files.length)
    ∧ (∀ f r, f ∈ files → p f = .ok r → (f, r) ∈ (process_directory p files).1)
    ∧ (∀ f e, f ∈ files → p f = .error e → (f, e) ∈ (process_directory p files).2) := by
  have heq : process_directory p files = (successes p files, failures p files) := by
    have := process_loop_eq p files [] [] h (by simp)
    simpa [process_directory] using this
  rw [heq]
  refine ⟨by simpa using successes_failures_length p files, ?_, ?_⟩
  · intro f r hf hp
    refine List.mem_filterMap.mpr ⟨f, hf, ?_⟩
    rw [hp]
  · intro f e hf hp
    refine List.mem_filterMap.mpr ⟨f, hf, ?_⟩
    rw [hp]

/-- Witness for C4: a concrete two-file batch where the first file fails still
records the second file's success, and the counts add up to the total. -/
theorem process_directory_spec_witness :
    ((process_directory
        (fun f => if f == "bad.set" then .error "boom" else .ok (0 : ℕ))
        ["bad.set", "good.set"]).1.length +
      (process_directory
        (fun f => if f == "bad.set" then .error "boom" else .ok (0 : ℕ))
        ["bad.set", "good.set"]).2.length = 2)
    ∧ ("good.set", (0 : ℕ)) ∈ (process_directory
        (fun f => if f == "bad.set" then .error "boom" else .ok (0 : ℕ))
        ["bad.set", "good.set"]).1
    ∧ ("bad.set", "boom") ∈ (process_directory
        (fun f => if f == "bad.set" then .error "boom" else .ok (0 : ℕ))
        ["bad.set", "good.set"]).2 := by
  have h := process_directory_spec
    (fun f => if f == "bad.set" then .error "boom" else .ok (0 : ℕ))
    ["bad.set", "good.set"] (by decide)
  exact ⟨h.1, h.2.1 "good.set" 0 (by simp) rfl, h.2.2 "bad.set" "boom" (by simp) rfl⟩

/-- The scaled random tensor has the requested shape. -/
theorem is_shape3_scale3_randn3 (c : ℚ) (st d1 d2 d3 : ℕ) :
    is_shape3 (scale3 c (randn3 st d1 d2 d3)) d1 d2 d3 = true := by
  simp [is_shape3, scale3, randn3, List.all_eq_true]

/-- Claim C6: the simulation fallback is deterministic — because the seed is
re-fixed to 42 before sampling, two runs from any two prior generator states
on the same epoch and time counts return identical tensors — of shape 68
source points by time by epoch, and every run equals the seeded base tensor
scaled by 1e-9. -/
theorem simulated_inverse_deterministic (s1 s2 n_times n_epochs : ℕ) :
    simulated_inverse s1 n_times n_epochs = simulated_inverse s2 n_times n_epochs
    ∧ is_shape3 (simulated_inverse s1 n_times n_epochs) 68 n_times n_epochs = true
    ∧ simulated_inverse s1 n_times n_epochs =
        scale3 1e-9 (randn3 42 68 n_times n_epochs) := by
  refine ⟨rfl, ?_, rfl⟩
  exact is_shape3_scale3_randn3 1e-9 42 68 n_times n_epochs

/-- Claim C2: whenever a real (non-fallback) inverse application is issued by
the inverse solver, the regularization strength it passes is 1/9 (that is,
1/snr^2 with snr fixed at 3.0) with method MNE, for every configured lambda2;
the value logged at the start of the stage is the configured lambda2, not the
applied one. -/
theorem applied_lambda2_overridden (cfg : SciParams) (ep : EpochsMeta)
    (forward : Option Unit) (env : InverseEnv) (rng : ℕ) :
    (∀ call, SolveLog.applied call ∈
        (compute_inverse_solution cfg ep forward env rng).2 →
      call.lambda2 = 1 / 9 ∧ call.method = "MNE")
    ∧ SolveLog.computing cfg.lambda2 ∈
        (compute_inverse_solution cfg ep forward env rng).2 := by
  obtain ⟨nc, io, ar⟩ := env
  unfold compute_inverse_solution
  cases forward with
  | none =>
    constructor
    · intro call hc
      simp at hc
    · simp
  | some u =>
    cases nc with
    | error e =>
      constructor
      · intro call hc
        simp at hc
      · simp
    | ok u1 =>
      cases io with
      | error e =>
        constructor
        · intro call hc
          simp at hc
        · simp
      | ok u2 =>
        cases har : ar ⟨1.0 / (3.0 : ℚ) ^ 2, "MNE"⟩ with
        | error e =>
          simp only [har]
          constructor
          · intro call hc
            simp at hc
            subst hc
            constructor
            · norm_num
            · rfl
          · simp
        | ok stcs =>
          cases stcs with
          | nil =>
            simp only [har]
            constructor
            · intro call hc
              simp at hc
              subst hc
              constructor
              · norm_num
              · rfl
            · simp
          | cons s0 rest =>
            simp only [har]
            constructor
            · intro call hc
              simp at hc
              subst hc
              constructor
              · norm_num
              · rfl
            · simp

/-- Witness for C2: at a concrete configuration with lambda2 = 0.05 and a
successful genuine path, the issued application carries 1/9 and method MNE. -/
theorem applied_lambda2_overridden_witness :
    ((⟨1.0 / (3.0 : ℚ) ^ 2, "MNE"⟩ : ApplyCall).lambda2 = 1 / 9
      ∧ (⟨1.0 / (3.0 : ℚ) ^ 2, "MNE"⟩ : ApplyCall).method = "MNE") := by
  refine (applied_lambda2_overridden ⟨0.05, 250, 1, 100⟩ ⟨2, [0], 250⟩ (some ())
      ⟨.ok (), .ok (), fun _ => .ok [⟨[[0]]⟩]⟩ 0).1
    ⟨1.0 / (3.0 : ℚ) ^ 2, "MNE"⟩ ?_
  simp [compute_inverse_solution]

/-- The stacked source tensor has as many rows as requested source points. -/
theorem stack_stcs_length (stcs : List Stc) (nS nT : ℕ) :
    (stack_stcs stcs nS nT).length = nS := by
  simp [stack_stcs]

/-- On a successful genuine path, the first dimension of the inverse solution
equals the source count of the returned source estimates. -/
theorem genuine_inverse_dim (cfg : SciParams) (ep : EpochsMeta)
    (ar : ApplyCall → Except String (List Stc)) (rng : ℕ)
    (s0 : Stc) (rest : List Stc)
    (h : ar ⟨1.0 / (3.0 : ℚ) ^ 2, "MNE"⟩ = .ok (s0 :: rest)) :
    (compute_inverse_solution cfg ep (some ()) ⟨.ok (), .ok (), ar⟩ rng).1.length
      = s0.data.length := by
  unfold compute_inverse_solution
  simp only [h]
  exact stack_stcs_length _ _ _

/-- The atlas step passes the solver tensor through unchanged. -/
theorem apply_atlas_parcellation_data (t : Tensor3) :
    (apply_atlas_parcellation t).data = t := rfl

/-- The atlas step always attaches the fixed region-name list. -/
theorem apply_atlas_parcellation_region_names (t : Tensor3) :
    (apply_atlas_parcellation t).region_names = DESIKAN_KILLIANY_REGIONS := rfl

/-- Claim C1 failing input: the atlas step's region-name list is indeed 68
names split 34 left / 34 right, but the step passes the solver's tensor
through unchanged, so on a genuine source-space solution — here the fsaverage
ico-5 source count of 20484 points for one epoch and one sample — the region
(first) dimension of the produced AtlasTimeSeries is 20484, not 68. -/
theorem atlas_genuine_region_dimension_bug :
    (apply_atlas_parcellation
        (compute_inverse_solution ⟨0.05, 250, 1, 100⟩ ⟨1, [0], 250⟩ (some ())
          ⟨.ok (), .ok (), fun _ => .ok [⟨List.replicate 20484 [0]⟩]⟩ 0).1).data.length
      = 20484
    ∧ (apply_atlas_parcellation
        (compute_inverse_solution ⟨0.05, 250, 1, 100⟩ ⟨1, [0], 250⟩ (some ())
          ⟨.ok (), .ok (), fun _ => .ok [⟨List.replicate 20484 [0]⟩]⟩ 0).1).region_names.length
      = 68
    ∧ DESIKAN_KILLIANY_REGIONS.countP (hemi_tag ['-', 'l', 'h']) = 34
    ∧ DESIKAN_KILLIANY_REGIONS.countP (hemi_tag ['-', 'r', 'h']) = 34
    ∧ (20484 : ℕ) ≠ 68 := by
  refine ⟨?_, ?_, by decide, by decide, by decide⟩
  · rw [apply_atlas_parcellation_data]
    rw [genuine_inverse_dim ⟨0.05, 250, 1, 100⟩ ⟨1, [0], 250⟩
      (fun _ => .ok [⟨List.replicate 20484 [0]⟩]) 0 ⟨List.replicate 20484 [0]⟩ [] rfl]
    show (List.replicate 20484 ([0] : List ℚ)).length = 20484
    rw [List.length_replicate]
  · rw [apply_atlas_parcellation_region_names]
    decide

/-- Claim C7: every failure inside forward-model construction — external or
the coverage gate — is converted by the enclosing handler into a logged
failure, a user-visible simulation warning, and a returned None, never an
exception to the caller; and when the external steps succeed but fewer than 8
channels carry a nonzero 3-D position, the internal error is
insufficient-coverage reporting the exact count. -/
theorem build_forward_model_spec :
    (∀ (env : ForwardEnv) (chs : List ChannelInfo) (e : ForwardError),
      build_forward_model_inner env chs = .error e →
      build_forward_model env chs =
        (none, [.forward_model_failed e, .warn_using_simulation e]))
    ∧ (∀ (env : ForwardEnv) (chs : List ChannelInfo) (d : String) (montage : Montage),
      env.fetch_fsaverage = .ok d →
      env.read_source_spaces = .ok () →
      env.read_bem_solution = .ok () →
      env.make_standard_montage = .ok montage →
      located_channel_count montage chs < 8 →
      build_forward_model_inner env chs =
        .error (.insufficient_coverage (located_channel_count montage chs))
      ∧ (build_forward_model env chs).1 = none) := by
  have hfail : ∀ (env : ForwardEnv) (chs : List ChannelInfo) (e : ForwardError),
      build_forward_model_inner env chs = .error e →
      build_forward_model env chs =
        (none, [.forward_model_failed e, .warn_using_simulation e]) := by
    intro env chs e h
    simp [build_forward_model, h]
  refine ⟨hfail, ?_⟩
  intro env chs d montage h1 h2 h3 h4 h5
  obtain ⟨f1, f2, f3, f4, f5⟩ := env
  dsimp only at h1 h2 h3 h4
  subst h1 h2 h3 h4
  simp only [located_channel_count] at h5
  have hinner : build_forward_model_inner ⟨.ok d, .ok (), .ok (), .ok montage, f5⟩ chs
      = .error (.insufficient_coverage
          (count_channels_with_locs (reconciled_info montage chs))) := by
    unfold build_forward_model_inner
    dsimp only
    rw [if_pos h5]
  exact ⟨hinner, by rw [hfail _ chs _ hinner]⟩

/-- Witness for C7: a concrete five-channel layout with located electrodes
fails the coverage gate with the count five, and the builder returns None. -/
theorem build_forward_model_spec_witness :
    build_forward_model_inner
        ⟨.ok "fsaverage", .ok (), .ok (), .ok [],
          fun _ => .ok ()⟩
        [⟨"E1", "eeg", [1, 0, 0]⟩, ⟨"E2", "eeg", [1, 0, 0]⟩, ⟨"E3", "eeg", [1, 0, 0]⟩,
          ⟨"E4", "eeg", [1, 0, 0]⟩, ⟨"E5", "eeg", [1, 0, 0]⟩] =
      .error (.insufficient_coverage 5)
    ∧ (build_forward_model
        ⟨.ok "fsaverage", .ok (), .ok (), .ok [],
          fun _ => .ok ()⟩
        [⟨"E1", "eeg", [1, 0, 0]⟩, ⟨"E2", "eeg", [1, 0, 0]⟩, ⟨"E3", "eeg", [1, 0, 0]⟩,
          ⟨"E4", "eeg", [1, 0, 0]⟩, ⟨"E5", "eeg", [1, 0, 0]⟩]).1 = none := by
  have h := build_forward_model_spec.2
    ⟨.ok "fsaverage", .ok (), .ok (), .ok [], fun _ => .ok ()⟩
    [⟨"E1", "eeg", [1, 0, 0]⟩, ⟨"E2", "eeg", [1, 0, 0]⟩, ⟨"E3", "eeg", [1, 0, 0]⟩,
      ⟨"E4", "eeg", [1, 0, 0]⟩, ⟨"E5", "eeg", [1, 0, 0]⟩]
    "fsaverage" [] rfl rfl rfl rfl (by decide)
  have hc : located_channel_count ([] : Montage)
      [⟨"E1", "eeg", [1, 0, 0]⟩, ⟨"E2", "eeg", [1, 0, 0]⟩, ⟨"E3", "eeg", [1, 0, 0]⟩,
        ⟨"E4", "eeg", [1, 0, 0]⟩, ⟨"E5", "eeg", [1, 0, 0]⟩] = 5 := by decide
  exact ⟨hc ▸ h.1, h.2⟩

/-- Claim C8: preprocessing already-epoched input applies no filter at all
when the per-epoch duration is under 2.0 s; at 2.0 s or more (and when the
filter calls succeed) the filters applied are exactly the high-pass (when its
cutoff is positive) followed by the low-pass (when its cutoff is below
Nyquist), in that order. -/
theorem preprocess_epoched_filter_policy (p : PreprocParams) (d : EpochedInput)
    (filter_ok : Bool) :
    (d.t_last - d.t_first < 2.0 →
      (preprocess_epoched_ops p d filter_ok).filter PreprocOp.is_filter = [])
    ∧ (2.0 ≤ d.t_last - d.t_first → filter_ok = true →
      (preprocess_epoched_ops p d filter_ok).filter PreprocOp.is_filter =
        (if p.highpass_freq > 0 then [PreprocOp.filter_highpass p.highpass_freq] else [])
          ++ (if p.lowpass_freq < d.sfreq / 2 then
              [PreprocOp.filter_lowpass p.lowpass_freq] else []))
    ∧ (2.0 ≤ d.t_last - d.t_first → filter_ok = true → p.highpass_freq > 0 →
        p.lowpass_freq < d.sfreq / 2 →
      List.Sublist [PreprocOp.filter_highpass p.highpass_freq,
        PreprocOp.filter_lowpass p.lowpass_freq] (preprocess_epoched_ops p d filter_ok)) := by
  refine ⟨?_, ?_, ?_⟩
  · intro hlt
    simp only [preprocess_epoched_ops]
    rw [if_pos hlt]
    simp only [List.nil_append, List.filter_append]
    split_ifs <;> simp [PreprocOp.is_filter]
  · intro hge hfk
    simp only [preprocess_epoched_ops]
    rw [if_neg (by linarith : ¬ (d.t_last - d.t_first < 2.0)), if_pos hfk]
    simp only [List.filter_append, List.append_assoc]
    split_ifs <;> simp [PreprocOp.is_filter]
  · intro hge hfk hhp hlp
    simp only [preprocess_epoched_ops]
    rw [if_neg (by linarith : ¬ (d.t_last - d.t_first < 2.0)), if_pos hfk,
      if_pos hhp, if_pos hlp]
    exact List.sublist_append_left _ _

/-- Witness for C8: a concrete 1.5 s epoched input is not filtered at all,
while a concrete 3.0 s epoched input receives high-pass then low-pass. -/
theorem preprocess_epoched_filter_policy_witness :
    (preprocess_epoched_ops ⟨250, 1, 100⟩ ⟨0, 1.5, 250, ["Cz", "Pz"], ["eeg", "eeg"]⟩
        true).filter PreprocOp.is_filter = []
    ∧ List.Sublist [PreprocOp.filter_highpass 1, PreprocOp.filter_lowpass 100]
        (preprocess_epoched_ops ⟨250, 1, 100⟩ ⟨0, 3, 250, ["Cz", "Pz"], ["eeg", "eeg"]⟩
          true) := by
  constructor
  · exact (preprocess_epoched_filter_policy ⟨250, 1, 100⟩
      ⟨0, 1.5, 250, ["Cz", "Pz"], ["eeg", "eeg"]⟩ true).1 (by norm_num)
  · exact (preprocess_epoched_filter_policy ⟨250, 1, 100⟩
      ⟨0, 3, 250, ["Cz", "Pz"], ["eeg", "eeg"]⟩ true).2.2 (by norm_num) rfl
      (by norm_num) (by norm_num)

end Autoclean
